import Mathlib

/-!
# Load-time demo routines of RouteToARM64SimSampleProject

Shallow embedding of `LibyuvExample.cpp` and `MNNExample.cpp`.

* Standard output is an explicit state: the text written so far.  A routine
  maps the text before the call to the text after it, or to `none` when a
  library call faults.
* The two native libraries are not part of the sources.  The routines take the
  library operations they call as arguments; `libyuv.ComputeSumSquareError`
  is the one operation written out from the specification.
-/

namespace RouteToARM64SimSampleProject

/-- An unsigned 8-bit value (`uint8_t`). -/
abbrev uint8_t := Fin 256

/-- The text written to standard output so far (`std::cout`, shared with `printf`). -/
abbrev ostream := String

/-! ## LibyuvExample.cpp -/

/-- `static const size_t kSize = 5;` -/
def kSize : Nat := 5

/-- `const uint8_t src_a[kSize] = {1, 2, 3, 4, 5};` -/
def src_a : List uint8_t := [1, 2, 3, 4, 5]

/-- `const uint8_t src_b[kSize] = {1, 3, 2, 4, 5};` -/
def src_b : List uint8_t := [1, 3, 2, 4, 5]

/-- `static_cast<int>(elem)`: widening of a byte to `int`. -/
def static_cast_int (elem : uint8_t) : Int := Int.ofNat elem.val

/-- The range-based loop
`for (const auto &elem : src) { std::cout << static_cast<int>(elem) << " "; }`. -/
def print_elems (src : List uint8_t) (cout : ostream) : ostream :=
  src.foldl (fun out elem => out ++ toString (static_cast_int elem) ++ " ") cout

/-- Body of `hello_from_libyuv_example`, statement by statement.  The argument
`ComputeSumSquareError` is the library operation `libyuv::ComputeSumSquareError`
(two buffers and a count); `none` is a faulting call. -/
def hello_from_libyuv_example
    (ComputeSumSquareError : List uint8_t → List uint8_t → Nat → Option Nat)
    (cout : ostream) : Option ostream :=
  let cout := cout ++ "Hello from libyuv example\n"
  let cout := cout ++ "a = "
  let cout := print_elems src_a cout
  let cout := cout ++ "\n"
  let cout := cout ++ "b = "
  let cout := print_elems src_b cout
  let cout := cout ++ "\n"
  let cout := cout ++ "SumSquareError(a, b) = "
  match ComputeSumSquareError src_a src_b kSize with
  | none => none
  | some sse => some (cout ++ toString sse ++ "\n")

/-- Modelled from the spec: `libyuv::ComputeSumSquareError`, whose code is in
the prebuilt libyuv library and not in the sources.  The spec gives it as the
sum over the paired elements of `(a[i]-b[i])²`, over `count` corresponding
bytes of two buffers, with an unsigned integer result; the differences are
taken as integers.  Reading past the end of a buffer is `none`. -/
def libyuv.ComputeSumSquareError : List uint8_t → List uint8_t → Nat → Option Nat
  | _, _, 0 => some 0
  | a :: src_a, b :: src_b, count + 1 =>
      (libyuv.ComputeSumSquareError src_a src_b count).map
        (fun sse => (((a.val : Int) - (b.val : Int)) ^ 2).toNat + sse)
  | _, _, _ + 1 => none

/-- Number of line terminators in a text. -/
def lineCount (out : String) : Nat := out.data.count (Char.ofNat 10)

/-! ## MNNExample.cpp -/

/-- The operations of `MNN::CV::Matrix` that `MNNExample.cpp` calls.  The class
lives in the prebuilt MNN library and not in the sources, so the routine takes
these operations as an argument.  `Matrix` is the type of the object `m`, `F` the
type of a coefficient. -/
structure MNN.CV (Matrix F : Type) where
  /-- The object built by `MNN::CV::Matrix{}`. -/
  init : Matrix
  /-- The object `m` after the statement `m.MakeTrans(dx, dy);`. -/
  MakeTrans : Matrix → Int → Int → Matrix
  /-- The object `m` after the statement `m.setRotate(degrees);`. -/
  setRotate : Matrix → Int → Matrix
  /-- The object `m` after the statement `m.MakeScale(scale);`. -/
  MakeScale : Matrix → Int → Matrix
  /-- The coefficient `m[index]`; `none` when the library rejects the index. -/
  get : Matrix → Nat → Option F
  /-- The characters `printf` writes for one coefficient under `%8.4f`. -/
  printf_8_4f : F → String

/-- The object `m` when the printing loops start: `Matrix{}` followed by
`m.MakeTrans(5, 10); m.setRotate(42); m.MakeScale(5);`. -/
def mnn_matrix {Matrix F : Type} (lib : MNN.CV Matrix F) : Matrix :=
  let m := lib.init
  let m := lib.MakeTrans m 5 10
  let m := lib.setRotate m 42
  let m := lib.MakeScale m 5
  m

/-- The inner loop `for (int j = 0; j < 3; ++j) { printf("%8.4f ", m[i * 3 + j]); }`
of row `i`. -/
def print_row {Matrix F : Type} (lib : MNN.CV Matrix F) (m : Matrix) (i : Nat)
    (cout : ostream) : Option ostream :=
  (List.range 3).foldlM
    (fun out j =>
      match lib.get m (i * 3 + j) with
      | none => none
      | some x => some (out ++ lib.printf_8_4f x ++ " "))
    cout

/-- Body of `hello_from_mnn_example`, statement by statement; `std::endl` writes
a line terminator. -/
def hello_from_mnn_example {Matrix F : Type} (lib : MNN.CV Matrix F)
    (cout : ostream) : Option ostream :=
  let cout := cout ++ "Hello from MNN example\n"
  let m := mnn_matrix lib
  (List.range 3).foldlM
    (fun out i =>
      match print_row lib m i out with
      | none => none
      | some out => some (out ++ "\n"))
    cout

/-- A small stand-in for the matrix library: the object carries nothing, the
coefficient at index `k` is the number `k` itself for `k` in `0..8`, any other
index is rejected, and a coefficient is written in decimal.  Running the routine
against it shows which indices are read, and in which order. -/
def indexEcho : MNN.CV Unit Nat where
  init := ()
  MakeTrans := fun m _ _ => m
  setRotate := fun m _ => m
  MakeScale := fun m _ => m
  get := fun _ k => if k < 9 then some k else none
  printf_8_4f := fun x => toString x

/-! ## Module load -/

/-- The two load-time routines. -/
inductive Routine where
  | libyuv_example
  | mnn_example
  deriving DecidableEq

/-- One invocation of a routine on the current standard output. -/
def invoke {Matrix F : Type}
    (ComputeSumSquareError : List uint8_t → List uint8_t → Nat → Option Nat)
    (lib : MNN.CV Matrix F) (r : Routine) (cout : ostream) : Option ostream :=
  match r with
  | .libyuv_example => hello_from_libyuv_example ComputeSumSquareError cout
  | .mnn_example => hello_from_mnn_example lib cout

/-- A sequence of invocations, each starting on the output left by the one before. -/
def run {Matrix F : Type}
    (ComputeSumSquareError : List uint8_t → List uint8_t → Nat → Option Nat)
    (lib : MNN.CV Matrix F) (rs : List Routine) (cout : ostream) : Option ostream :=
  rs.foldlM (fun out r => invoke ComputeSumSquareError lib r out) cout

/-! ## Auxiliary facts -/

theorem lineCount_append (s t : String) : lineCount (s ++ t) = lineCount s + lineCount t := by
  simp [lineCount, List.count_append]

theorem digitChar_ne_newline (d : Nat) (hd : d < 10) : Nat.digitChar d ≠ Char.ofNat 10 := by
  interval_cases d <;> decide

theorem toDigitsCore_mem (fuel : Nat) :
    ∀ (n : Nat) (ds : List Char) (c : Char), c ∈ Nat.toDigitsCore 10 fuel n ds →
      c ∈ ds ∨ ∃ d, d < 10 ∧ c = Nat.digitChar d := by
  induction fuel with
  | zero => intro n ds c h; exact Or.inl h
  | succ fuel ih =>
    intro n ds c h
    have hlt : n % 10 < 10 := Nat.mod_lt n (by decide)
    simp only [Nat.toDigitsCore] at h
    split at h
    · rcases List.mem_cons.mp h with h | h
      · exact Or.inr ⟨_, hlt, h⟩
      · exact Or.inl h
    · rcases ih _ _ c h with h | h
      · rcases List.mem_cons.mp h with h | h
        · exact Or.inr ⟨_, hlt, h⟩
        · exact Or.inl h
      · exact Or.inr h

theorem lineCount_toString_nat (n : Nat) : lineCount (toString n) = 0 := by
  show List.count (Char.ofNat 10) (Nat.toDigits 10 n).asString.data = 0
  rw [List.count_eq_zero]
  intro h
  rcases toDigitsCore_mem _ _ _ _ h with h | ⟨d, hd, h⟩
  · simp at h
  · exact digitChar_ne_newline d hd h.symm

theorem join_cons (s : String) (ss : List String) :
    String.join (s :: ss) = s ++ String.join ss := by
  apply String.ext
  simp [String.data_join]

theorem print_elems_eq (src : List uint8_t) :
    ∀ cout : ostream, print_elems src cout =
      cout ++ String.join (src.map (fun elem => toString (static_cast_int elem) ++ " ")) := by
  induction src with
  | nil => intro cout; simp [print_elems, String.join]
  | cons e es ih =>
    intro cout
    have h := ih (cout ++ toString (static_cast_int e) ++ " ")
    simp only [print_elems, List.foldl_cons] at h ⊢
    rw [h, List.map_cons, join_cons]
    simp only [String.append_assoc]

theorem hello_from_libyuv_example_eq
    (sse : List uint8_t → List uint8_t → Nat → Option Nat) (cout : ostream) :
    hello_from_libyuv_example sse cout =
      (sse src_a src_b kSize).map (fun v =>
        cout ++ ("Hello from libyuv example\na = 1 2 3 4 5 \nb = 1 3 2 4 5 \n" ++
          ("SumSquareError(a, b) = " ++ (toString v ++ "\n")))) := by
  have ha : String.join (src_a.map (fun elem => toString (static_cast_int elem) ++ " "))
      = "1 2 3 4 5 " := by decide
  have hb : String.join (src_b.map (fun elem => toString (static_cast_int elem) ++ " "))
      = "1 3 2 4 5 " := by decide
  unfold hello_from_libyuv_example
  simp only [print_elems_eq, ha, hb]
  cases sse src_a src_b kSize with
  | none => rfl
  | some v =>
    simp only [Option.map_some', String.append_assoc]
    rfl

theorem ComputeSumSquareError_isSome :
    ∀ (count : Nat) (a b : List uint8_t), count ≤ a.length → count ≤ b.length →
      (libyuv.ComputeSumSquareError a b count).isSome = true := by
  intro count
  induction count with
  | zero => intro a b _ _; simp [libyuv.ComputeSumSquareError]
  | succ n ih =>
    intro a b ha hb
    cases a with
    | nil => simp at ha
    | cons x a =>
      cases b with
      | nil => simp at hb
      | cons y b =>
        have h := ih a b (by simpa using ha) (by simpa using hb)
        simp [libyuv.ComputeSumSquareError, h]

theorem sq_diff_eq_zero_iff (x y : uint8_t) :
    (((x.val : Int) - (y.val : Int)) ^ 2).toNat = 0 ↔ x = y := by
  rw [Int.toNat_eq_zero]
  constructor
  · intro h
    have h0 : ((x.val : Int) - (y.val : Int)) ^ 2 = 0 :=
      le_antisymm h (sq_nonneg _)
    have h1 : (x.val : Int) - (y.val : Int) = 0 := by
      simpa using h0
    apply Fin.ext
    omega
  · intro h
    subst h
    simp

/-- Appending to the text already written commutes with a loop whose every step
appends a text that does not depend on what was written before. -/
theorem foldlM_frame {α : Type} (step : ostream → α → Option ostream)
    (hstep : ∀ out x, step out x = (step "" x).map (fun text => out ++ text))
    (xs : List α) :
    ∀ out : ostream, xs.foldlM step out = (xs.foldlM step "").map (fun text => out ++ text) := by
  induction xs with
  | nil => intro out; simp
  | cons x xs ih =>
    intro out
    simp only [List.foldlM_cons]
    rw [hstep out x]
    cases hx : step "" x with
    | none => simp
    | some t =>
      simp only [Option.map_some', Option.bind_eq_bind, Option.some_bind]
      rw [ih (out ++ t), ih t]
      simp [Option.map_map, Function.comp_def, String.append_assoc]

theorem print_row_frame {Matrix F : Type} (lib : MNN.CV Matrix F) (m : Matrix) (i : Nat)
    (out : ostream) :
    print_row lib m i out = (print_row lib m i "").map (fun text => out ++ text) := by
  unfold print_row
  apply foldlM_frame
  intro out j
  cases lib.get m (i * 3 + j) with
  | none => rfl
  | some x => simp [String.append_assoc]

theorem hello_from_mnn_example_frame {Matrix F : Type} (lib : MNN.CV Matrix F)
    (cout : ostream) :
    hello_from_mnn_example lib cout =
      (hello_from_mnn_example lib "").map (fun text => cout ++ text) := by
  have hstep : ∀ (out : ostream) (i : Nat),
      (match print_row lib (mnn_matrix lib) i out with
        | none => none
        | some out => some (out ++ "\n")) =
      (match print_row lib (mnn_matrix lib) i "" with
        | none => none
        | some out => some (out ++ "\n")).map (fun text => out ++ text) := by
    intro out i
    rw [print_row_frame lib (mnn_matrix lib) i out]
    cases print_row lib (mnn_matrix lib) i "" with
    | none => rfl
    | some t => simp [String.append_assoc]
  unfold hello_from_mnn_example
  simp only []
  rw [foldlM_frame _ hstep (List.range 3) (cout ++ "Hello from MNN example\n"),
    foldlM_frame _ hstep (List.range 3) ("" ++ "Hello from MNN example\n")]
  simp [Option.map_map, Function.comp_def, String.append_assoc]

theorem hello_from_libyuv_example_frame
    (sse : List uint8_t → List uint8_t → Nat → Option Nat) (cout : ostream) :
    hello_from_libyuv_example sse cout =
      (hello_from_libyuv_example sse "").map (fun text => cout ++ text) := by
  rw [hello_from_libyuv_example_eq sse cout, hello_from_libyuv_example_eq sse ""]
  simp [Option.map_map, Function.comp_def]

theorem hello_from_mnn_example_eq {Matrix F : Type} (lib : MNN.CV Matrix F)
    (cout : ostream) (c : Nat → F)
    (h : ∀ k, k < 9 → lib.get (mnn_matrix lib) k = some (c k)) :
    hello_from_mnn_example lib cout =
      some (cout ++ ("Hello from MNN example\n" ++
        (lib.printf_8_4f (c 0) ++ (" " ++ (lib.printf_8_4f (c 1) ++ (" " ++
          (lib.printf_8_4f (c 2) ++ (" " ++ ("\n" ++
        (lib.printf_8_4f (c 3) ++ (" " ++ (lib.printf_8_4f (c 4) ++ (" " ++
          (lib.printf_8_4f (c 5) ++ (" " ++ ("\n" ++
        (lib.printf_8_4f (c 6) ++ (" " ++ (lib.printf_8_4f (c 7) ++ (" " ++
          (lib.printf_8_4f (c 8) ++ (" " ++ "\n")))))))))))))))))))))) := by
  have hr : List.range 3 = [0, 1, 2] := rfl
  have h0 : lib.get (mnn_matrix lib) (0 * 3 + 0) = some (c 0) := h 0 (by decide)
  have h1 : lib.get (mnn_matrix lib) (0 * 3 + 1) = some (c 1) := h 1 (by decide)
  have h2 : lib.get (mnn_matrix lib) (0 * 3 + 2) = some (c 2) := h 2 (by decide)
  have h3 : lib.get (mnn_matrix lib) (1 * 3 + 0) = some (c 3) := h 3 (by decide)
  have h4 : lib.get (mnn_matrix lib) (1 * 3 + 1) = some (c 4) := h 4 (by decide)
  have h5 : lib.get (mnn_matrix lib) (1 * 3 + 2) = some (c 5) := h 5 (by decide)
  have h6 : lib.get (mnn_matrix lib) (2 * 3 + 0) = some (c 6) := h 6 (by decide)
  have h7 : lib.get (mnn_matrix lib) (2 * 3 + 1) = some (c 7) := h 7 (by decide)
  have h8 : lib.get (mnn_matrix lib) (2 * 3 + 2) = some (c 8) := h 8 (by decide)
  simp only [hello_from_mnn_example, print_row, hr, List.foldlM_cons, List.foldlM_nil,
    h0, h1, h2, h3, h4, h5, h6, h7, h8, Option.bind_eq_bind, Option.some_bind,
    Option.pure_def, String.append_assoc]

/-! ## Pixel-difference demo -/

/-- C1: for the fixed buffers `a = [1,2,3,4,5]` and `b = [1,3,2,4,5]` and the
count 5, the sum of squared differences is exactly 2 and the demo prints 2; the
pair `(2, 3)` contributes `(2-3)² = 1`, the square of the integer difference. -/
theorem sum_square_error_is_two :
    libyuv.ComputeSumSquareError src_a src_b kSize = some 2 ∧
    libyuv.ComputeSumSquareError [2] [3] 1 = some 1 ∧
    hello_from_libyuv_example libyuv.ComputeSumSquareError "" =
      some ("Hello from libyuv example\na = 1 2 3 4 5 \nb = 1 3 2 4 5 \n" ++
        "SumSquareError(a, b) = 2\n") := by
  refine ⟨by decide, by decide, by decide⟩

/-- C3: the element loop writes every byte as a decimal integer, in index order,
each followed by one space; array `a` is rendered `1 2 3 4 5 ` and array `b`
is rendered `1 3 2 4 5 `, trailing space included. -/
theorem print_elems_renders :
    (∀ (src : List uint8_t) (cout : ostream), print_elems src cout =
      cout ++ String.join (src.map (fun elem => Nat.repr elem.val ++ " "))) ∧
    print_elems src_a "" = "1 2 3 4 5 " ∧
    print_elems src_b "" = "1 3 2 4 5 " := by
  refine ⟨fun src cout => print_elems_eq src cout, by decide, by decide⟩

/-- C4, as stated: the text written by one invocation does not have six line
terminators. -/
theorem libyuv_output_not_six_lines :
    (hello_from_libyuv_example libyuv.ComputeSumSquareError "").map lineCount ≠ some 6 := by
  decide

/-- C4, amended: whatever value the library returns, one invocation appends a
text of exactly four lines, the last of them terminated. -/
theorem libyuv_output_four_lines
    (sse : List uint8_t → List uint8_t → Nat → Option Nat) (cout out : ostream)
    (h : hello_from_libyuv_example sse cout = some out) :
    ∃ text : String, out = cout ++ text ∧ lineCount text = 4 ∧
      text.data.getLast? = some (Char.ofNat 10) := by
  rw [hello_from_libyuv_example_eq] at h
  cases hv : sse src_a src_b kSize with
  | none => simp [hv] at h
  | some v =>
    rw [hv] at h
    simp only [Option.map_some', Option.some.injEq] at h
    refine ⟨_, h.symm, ?_, ?_⟩
    · rw [lineCount_append, lineCount_append, lineCount_append, lineCount_toString_nat]
      decide
    · have hn : ("\n" : String).data = [Char.ofNat 10] := by decide
      simp only [String.data_append, hn, ← List.append_assoc]
      exact List.getLast?_concat _

theorem libyuv_output_four_lines_witness :
    hello_from_libyuv_example libyuv.ComputeSumSquareError "" =
      some ("Hello from libyuv example\na = 1 2 3 4 5 \nb = 1 3 2 4 5 \n" ++
        "SumSquareError(a, b) = 2\n") ∧
    ∃ text : String,
      "Hello from libyuv example\na = 1 2 3 4 5 \nb = 1 3 2 4 5 \n" ++
        "SumSquareError(a, b) = 2\n" = "" ++ text ∧
      lineCount text = 4 ∧ text.data.getLast? = some (Char.ofNat 10) :=
  ⟨by decide, libyuv_output_four_lines libyuv.ComputeSumSquareError "" _ (by decide)⟩

/-- C5: the routine appends, in this order and with nothing before, between or
after: the label line, the line `a = ` with array a, the line `b = ` with
array b, and the line `SumSquareError(a, b) = ` with the value the library
returned. -/
theorem libyuv_output_order
    (sse : List uint8_t → List uint8_t → Nat → Option Nat) (cout : ostream) (v : Nat)
    (h : sse src_a src_b kSize = some v) :
    hello_from_libyuv_example sse cout =
      some (cout ++ "Hello from libyuv example\n" ++ "a = 1 2 3 4 5 \n" ++ "b = 1 3 2 4 5 \n"
        ++ ("SumSquareError(a, b) = " ++ toString v ++ "\n")) := by
  rw [hello_from_libyuv_example_eq, h]
  simp only [Option.map_some', String.append_assoc]
  rfl

theorem libyuv_output_order_witness :
    libyuv.ComputeSumSquareError src_a src_b kSize = some 2 ∧
    hello_from_libyuv_example libyuv.ComputeSumSquareError "" =
      some ("" ++ "Hello from libyuv example\n" ++ "a = 1 2 3 4 5 \n" ++ "b = 1 3 2 4 5 \n"
        ++ ("SumSquareError(a, b) = " ++ toString 2 ++ "\n")) :=
  ⟨by decide, libyuv_output_order libyuv.ComputeSumSquareError "" 2 (by decide)⟩

/-- C9: for two byte sequences of the same length, the sum of squared
differences over the whole length is returned, and it is 0 exactly when the two
sequences are equal. -/
theorem sum_square_error_zero_iff (a b : List uint8_t) (h : a.length = b.length) :
    ∃ sse : Nat, libyuv.ComputeSumSquareError a b a.length = some sse ∧ (sse = 0 ↔ a = b) := by
  induction a generalizing b with
  | nil =>
    cases b with
    | nil => exact ⟨0, rfl, by simp⟩
    | cons y b => simp at h
  | cons x a ih =>
    cases b with
    | nil => simp at h
    | cons y b =>
      obtain ⟨s, hs, hiff⟩ := ih b (by simpa using h)
      refine ⟨(((x.val : Int) - (y.val : Int)) ^ 2).toNat + s, ?_, ?_⟩
      · simp only [List.length_cons, libyuv.ComputeSumSquareError, hs, Option.map_some']
      · rw [Nat.add_eq_zero_iff, sq_diff_eq_zero_iff, hiff]
        simp

theorem sum_square_error_zero_iff_witness :
    src_a.length = src_b.length ∧
    ∃ sse : Nat, libyuv.ComputeSumSquareError src_a src_b src_a.length = some sse ∧
      (sse = 0 ↔ src_a = src_b) :=
  ⟨by decide, sum_square_error_zero_iff src_a src_b (by decide)⟩

/-! ## Matrix-transform demo -/

/-- C6: after the label line the routine writes three lines of three fields
each; the field in row `i`, column `j` is the coefficient at linear index
`3 * i + j`, so the nine coefficients `0..8` appear once each, in ascending
order. -/
theorem mnn_output_grid {Matrix F : Type} (lib : MNN.CV Matrix F) (cout : ostream)
    (c : Nat → F) (h : ∀ k, k < 9 → lib.get (mnn_matrix lib) k = some (c k)) :
    hello_from_mnn_example lib cout =
      some (cout ++ "Hello from MNN example\n" ++
        String.join ((List.range 3).map (fun i =>
          String.join ((List.range 3).map (fun j => lib.printf_8_4f (c (3 * i + j)) ++ " "))
            ++ "\n"))) ∧
    hello_from_mnn_example lib cout =
      some (cout ++ "Hello from MNN example\n" ++
        (lib.printf_8_4f (c 0) ++ " " ++ lib.printf_8_4f (c 1) ++ " " ++
          lib.printf_8_4f (c 2) ++ " " ++ "\n") ++
        (lib.printf_8_4f (c 3) ++ " " ++ lib.printf_8_4f (c 4) ++ " " ++
          lib.printf_8_4f (c 5) ++ " " ++ "\n") ++
        (lib.printf_8_4f (c 6) ++ " " ++ lib.printf_8_4f (c 7) ++ " " ++
          lib.printf_8_4f (c 8) ++ " " ++ "\n")) := by
  have hr : List.range 3 = [0, 1, 2] := rfl
  have hnil : String.join [] = "" := rfl
  rw [hello_from_mnn_example_eq lib cout c h]
  constructor
  · simp only [hr, List.map_cons, List.map_nil, join_cons, hnil, String.append_assoc,
      String.append_empty, Nat.mul_zero, Nat.mul_one, Nat.zero_add, Nat.reduceMul,
      Nat.reduceAdd]
  · simp only [String.append_assoc]

theorem mnn_output_grid_witness :
    (∀ k, k < 9 → indexEcho.get (mnn_matrix indexEcho) k = some (id k)) ∧
    hello_from_mnn_example indexEcho "" =
      some ("" ++ "Hello from MNN example\n" ++
        (indexEcho.printf_8_4f (id 0) ++ " " ++ indexEcho.printf_8_4f (id 1) ++ " " ++
          indexEcho.printf_8_4f (id 2) ++ " " ++ "\n") ++
        (indexEcho.printf_8_4f (id 3) ++ " " ++ indexEcho.printf_8_4f (id 4) ++ " " ++
          indexEcho.printf_8_4f (id 5) ++ " " ++ "\n") ++
        (indexEcho.printf_8_4f (id 6) ++ " " ++ indexEcho.printf_8_4f (id 7) ++ " " ++
          indexEcho.printf_8_4f (id 8) ++ " " ++ "\n")) :=
  ⟨fun k hk => by simp [indexEcho, hk],
    (mnn_output_grid indexEcho "" id (fun k hk => by simp [indexEcho, hk])).2⟩

/-! ## Both routines -/

/-- C7: the count handed to the sum-of-squared-error operation is the length of
both buffers, and the matrix routine reads coefficient indices `0..8` only:
with a library that serves every count within both buffers and every
coefficient index below 9, neither routine faults. -/
theorem demos_do_not_fault {Matrix F : Type}
    (sse : List uint8_t → List uint8_t → Nat → Option Nat) (lib : MNN.CV Matrix F)
    (hsse : ∀ a b count, count ≤ a.length → count ≤ b.length → (sse a b count).isSome = true)
    (hget : ∀ m k, k < 9 → (lib.get m k).isSome = true)
    (cout₁ cout₂ : ostream) :
    kSize = src_a.length ∧ kSize = src_b.length ∧
    (hello_from_libyuv_example sse cout₁).isSome = true ∧
    (hello_from_mnn_example lib cout₂).isSome = true := by
  refine ⟨rfl, rfl, ?_, ?_⟩
  · have h := hsse src_a src_b kSize (by decide) (by decide)
    rw [hello_from_libyuv_example_eq]
    simpa using h
  · obtain ⟨x0, h0⟩ := Option.isSome_iff_exists.mp (hget (mnn_matrix lib) 0 (by decide))
    obtain ⟨x1, h1⟩ := Option.isSome_iff_exists.mp (hget (mnn_matrix lib) 1 (by decide))
    obtain ⟨x2, h2⟩ := Option.isSome_iff_exists.mp (hget (mnn_matrix lib) 2 (by decide))
    obtain ⟨x3, h3⟩ := Option.isSome_iff_exists.mp (hget (mnn_matrix lib) 3 (by decide))
    obtain ⟨x4, h4⟩ := Option.isSome_iff_exists.mp (hget (mnn_matrix lib) 4 (by decide))
    obtain ⟨x5, h5⟩ := Option.isSome_iff_exists.mp (hget (mnn_matrix lib) 5 (by decide))
    obtain ⟨x6, h6⟩ := Option.isSome_iff_exists.mp (hget (mnn_matrix lib) 6 (by decide))
    obtain ⟨x7, h7⟩ := Option.isSome_iff_exists.mp (hget (mnn_matrix lib) 7 (by decide))
    obtain ⟨x8, h8⟩ := Option.isSome_iff_exists.mp (hget (mnn_matrix lib) 8 (by decide))
    have hc : ∀ k, k < 9 → lib.get (mnn_matrix lib) k =
        some ([x0, x1, x2, x3, x4, x5, x6, x7].getD k x8) := by
      intro k hk
      interval_cases k <;> assumption
    rw [hello_from_mnn_example_eq lib cout₂ _ hc]
    rfl

theorem demos_do_not_fault_witness :
    (∀ a b count, count ≤ a.length → count ≤ b.length →
      (libyuv.ComputeSumSquareError a b count).isSome = true) ∧
    (∀ (m : Unit) k, k < 9 → (indexEcho.get m k).isSome = true) ∧
    kSize = src_a.length ∧ kSize = src_b.length ∧
    (hello_from_libyuv_example libyuv.ComputeSumSquareError "").isSome = true ∧
    (hello_from_mnn_example indexEcho "").isSome = true :=
  ⟨fun a b count ha hb => ComputeSumSquareError_isSome count a b ha hb,
    fun _ k hk => by simp [indexEcho, hk],
    demos_do_not_fault libyuv.ComputeSumSquareError indexEcho
      (fun a b count ha hb => ComputeSumSquareError_isSome count a b ha hb)
      (fun _ k hk => by simp [indexEcho, hk]) "" ""⟩

/-- C8: an invocation of either routine appends to standard output the text the
same routine writes when run alone on an empty output, whatever was written
before; hence every sequence of invocations writes the concatenation of the
texts of its routines run alone. -/
theorem routines_independent {Matrix F : Type}
    (sse : List uint8_t → List uint8_t → Nat → Option Nat) (lib : MNN.CV Matrix F) :
    (∀ (r : Routine) (cout : ostream),
      invoke sse lib r cout = (invoke sse lib r "").map (fun text => cout ++ text)) ∧
    (∀ (rs : List Routine) (cout : ostream),
      run sse lib rs cout =
        (rs.mapM (fun r => invoke sse lib r "")).map (fun texts => cout ++ String.join texts)) := by
  have hinv : ∀ (r : Routine) (cout : ostream),
      invoke sse lib r cout = (invoke sse lib r "").map (fun text => cout ++ text) := by
    intro r cout
    cases r with
    | libyuv_example => exact hello_from_libyuv_example_frame sse cout
    | mnn_example => exact hello_from_mnn_example_frame lib cout
  refine ⟨hinv, ?_⟩
  intro rs
  induction rs with
  | nil =>
    intro cout
    have hnil : String.join [] = "" := rfl
    simp only [run, List.foldlM_nil, List.mapM_nil]
    show some cout = some (cout ++ String.join [])
    rw [hnil, String.append_empty]
  | cons r rs ih =>
    intro cout
    have hrun : run sse lib (r :: rs) cout = (invoke sse lib r cout).bind (run sse lib rs) := by
      simp [run, List.foldlM_cons]
    rw [hrun, hinv r cout, List.mapM_cons]
    cases invoke sse lib r "" with
    | none => simp
    | some t =>
      simp only [Option.map_some', Option.some_bind, Option.bind_eq_bind, ih (cout ++ t)]
      cases List.mapM (fun r => invoke sse lib r "") rs with
      | none => simp
      | some ts => simp [join_cons, String.append_assoc]


end RouteToARM64SimSampleProject
